import Mathlib

/-!
Verification of the homebridge-wave-plus plugin (src/src/index.ts) against its
natural-language specification.  Numeric values carried by JavaScript numbers
are modelled as rationals; byte buffers as lists of naturals.
-/

/-! ## Air-Quality Classifier (src/src/index.ts, lines 293-323)

The source computes `aq` by an initial assignment from the humidity band and
three subsequent `Math.max` folds over the radon, CO2 and VOC bands.  `classify`
is the literal translation; the four sub-score functions name the value each
band block contributes. -/

def humidityScore (humidity : ℚ) : ℕ :=
  if humidity ≥ 70 ∨ humidity < 25 then 5
  else if humidity ≥ 60 ∨ humidity < 30 then 3
  else 2

def radonScore (radonStAvg : ℚ) : ℕ :=
  if radonStAvg ≥ 150 then 5
  else if radonStAvg ≥ 100 then 3
  else 2

def co2Score (co2 : ℚ) : ℕ :=
  if co2 ≥ 1500 then 5
  else if co2 ≥ 1200 then 4
  else if co2 ≥ 800 then 3
  else 2

def vocScore (voc : ℚ) : ℕ :=
  if voc ≥ 2000 then 5
  else if voc ≥ 250 then 3
  else 2

def classify (humidity radonStAvg co2 voc : ℚ) : ℕ :=
  let aq1 :=
    if humidity ≥ 70 ∨ humidity < 25 then 5
    else if humidity ≥ 60 ∨ humidity < 30 then 3
    else 2
  let aq2 :=
    if radonStAvg ≥ 150 then max aq1 5
    else if radonStAvg ≥ 100 then max aq1 3
    else max aq1 2
  let aq3 :=
    if co2 ≥ 1500 then max aq2 5
    else if co2 ≥ 1200 then max aq2 4
    else if co2 ≥ 800 then max aq2 3
    else max aq2 2
  let aq4 :=
    if voc ≥ 2000 then max aq3 5
    else if voc ≥ 250 then max aq3 3
    else max aq3 2
  aq4

/-! ## Payload Codec -/

def readU8 (b : List ℕ) (i : ℕ) : ℕ := b.getD i 0

def readU16LE (b : List ℕ) (i : ℕ) : ℕ := b.getD i 0 + 256 * b.getD (i + 1) 0

def readU32LE (b : List ℕ) (i : ℕ) : ℕ :=
  b.getD i 0 + 256 * b.getD (i + 1) 0 + 65536 * b.getD (i + 2) 0 +
    16777216 * b.getD (i + 3) 0

/-- Modelled from the spec: the call `struct.unpack('BBBBHHHHHHHH', buf)` uses
the python-struct dependency, whose code is not part of this repository.  Per
the spec the decode signals a failure whenever the buffer length does not match
the layout exactly, and the 16-bit fields are little-endian.  The layout size
comes from the format string in the source: four unsigned 8-bit fields followed
by eight unsigned 16-bit fields, i.e. 4 + 8 * 2 = 20 bytes. -/
def unpackBBBBH8 (buf : List ℕ) : Option (List ℕ) :=
  if buf.length = 20 then
    some [readU8 buf 0, readU8 buf 1, readU8 buf 2, readU8 buf 3,
          readU16LE buf 4, readU16LE buf 6, readU16LE buf 8, readU16LE buf 10,
          readU16LE buf 12, readU16LE buf 14, readU16LE buf 16, readU16LE buf 18]
  else none

structure Reading where
  humidity : ℚ
  radonStAvg : ℚ
  radonLtAvg : ℚ
  temp : ℚ
  pressure : ℚ
  co2 : ℚ
  voc : ℚ
  deriving DecidableEq, Repr

/-- Field derivation of src/src/index.ts lines 263-272. -/
def decodePayload (buf : List ℕ) : Option Reading :=
  (unpackBBBBH8 buf).map fun data =>
    { humidity := (data.getD 1 0 : ℚ) / 2
      radonStAvg := (data.getD 4 0 : ℚ)
      radonLtAvg := (data.getD 5 0 : ℚ)
      temp := (data.getD 6 0 : ℚ) / 100
      pressure := (data.getD 7 0 : ℚ) / 50
      co2 := (data.getD 8 0 : ℚ)
      voc := (data.getD 9 0 : ℚ) }

/-! ## Identity decode (src/src/index.ts, lines 410-426)

`onDiscover` requires manufacturer data longer than 6 bytes, unpacks it with
the explicit little-endian format "<HLH" (16-bit tag, 32-bit serial, 16-bit
unused), and records a match only when the tag is 0x0334 and the serial equals
the configured target serial. -/

structure DeviceIdentity where
  tag : ℕ
  serial : ℕ
  deriving DecidableEq, Repr

def decodeIdentity (manufacturerData : List ℕ) : Option DeviceIdentity :=
  if 6 < manufacturerData.length then
    some { tag := readU16LE manufacturerData 0
           serial := readU32LE manufacturerData 2 }
  else none

def onDiscoverMatch (targetSerial : ℕ) (manufacturerData : List ℕ) : Bool :=
  match decodeIdentity manufacturerData with
  | none => false
  | some d =>
    if d.tag = 0x0334 then
      if d.serial = targetSerial then true else false
    else false

/-! ## Publish step (src/src/index.ts, lines 289-359)

`_lastState` holds the last published values (initialised to -1); each enabled
facet emits only on change and updates `_lastState` exactly on emit.  The
air-quality block emits the index and the VOC density together.  `Flags`
records which services exist (a service exists when its disable flag is not
set) and whether the InfluxDB writer is configured. -/

structure LastState where
  aq : ℚ
  voc : ℚ
  co2 : ℚ
  humidity : ℚ
  temp : ℚ
  deriving DecidableEq, Repr

def initialLastState : LastState :=
  { aq := -1, voc := -1, co2 := -1, humidity := -1, temp := -1 }

structure Flags where
  aqEnabled : Bool
  co2Enabled : Bool
  humidityEnabled : Bool
  tempEnabled : Bool
  influxEnabled : Bool
  deriving DecidableEq, Repr

inductive PubEvent where
  | airQuality (v : ℚ)
  | vocDensity (v : ℚ)
  | co2Level (v : ℚ)
  | relHumidity (v : ℚ)
  | temperature (v : ℚ)
  deriving DecidableEq, Repr

def isCo2Event : PubEvent → Bool
  | PubEvent.co2Level _ => true
  | _ => false

def aqFacetStep (enabled : Bool) (last : LastState) (aqv voc : ℚ) :
    LastState × List PubEvent :=
  if enabled then
    if aqv ≠ last.aq ∨ voc ≠ last.voc then
      ({ last with aq := aqv, voc := voc },
       [PubEvent.airQuality aqv, PubEvent.vocDensity voc])
    else (last, [])
  else (last, [])

def co2FacetStep (enabled : Bool) (last : LastState) (co2 : ℚ) :
    LastState × List PubEvent :=
  if enabled then
    if co2 ≠ last.co2 then ({ last with co2 := co2 }, [PubEvent.co2Level co2])
    else (last, [])
  else (last, [])

def humidityFacetStep (enabled : Bool) (last : LastState) (humidity : ℚ) :
    LastState × List PubEvent :=
  if enabled then
    if humidity ≠ last.humidity then
      ({ last with humidity := humidity }, [PubEvent.relHumidity humidity])
    else (last, [])
  else (last, [])

def tempFacetStep (enabled : Bool) (last : LastState) (temp : ℚ) :
    LastState × List PubEvent :=
  if enabled then
    if temp ≠ last.temp then
      ({ last with temp := temp }, [PubEvent.temperature temp])
    else (last, [])
  else (last, [])

def publishStep (flags : Flags) (last : LastState) (aqv voc co2 humidity temp : ℚ) :
    LastState × List PubEvent :=
  let r1 := aqFacetStep flags.aqEnabled last aqv voc
  let r2 := co2FacetStep flags.co2Enabled r1.1 co2
  let r3 := humidityFacetStep flags.humidityEnabled r2.1 humidity
  let r4 := tempFacetStep flags.tempEnabled r3.1 temp
  (r4.1, r1.2 ++ r2.2 ++ r3.2 ++ r4.2)

/-! ## Telemetry point (src/src/index.ts, lines 365-373) -/

structure TelemetryPoint where
  rssi : ℚ
  humidity : ℚ
  radonStAvg : ℚ
  radonLtAvg : ℚ
  temp : ℚ
  pressure : ℚ
  co2 : ℚ
  voc : ℚ
  deriving DecidableEq, Repr

def mkPoint (rssi : ℚ) (r : Reading) : TelemetryPoint :=
  { rssi := rssi, humidity := r.humidity, radonStAvg := r.radonStAvg,
    radonLtAvg := r.radonLtAvg, temp := r.temp, pressure := r.pressure,
    co2 := r.co2, voc := r.voc }

/-! ## Session Driver main cycle (src/src/index.ts, lines 139-386)

One invocation of `main` is modelled as a pure step over the mutable session
state (`_lastState`, `_peripheral` presence, `_scanning`), with the outcomes of
the asynchronous environment (adapter power, peripheral connection-state on
entry, connect race, read race) supplied as an explicit environment record.
The result records the externally observable effects of the cycle: published
events, the telemetry point, whether the interval timer was armed, the extra
backoff before requeueing `main` or `scan` (milliseconds), whether a scan was
queued, and whether `cancelConnect` was invoked. -/

inductive PeriState where
  | disconnected
  | connecting
  | connected
  | disconnecting
  | error
  deriving DecidableEq, Repr

inductive ConnectOutcome where
  | success
  | timedOut
  | failed
  deriving DecidableEq, Repr

inductive ReadOutcome where
  | success (buf : List ℕ)
  | timedOut
  deriving DecidableEq, Repr

structure CycleEnv where
  poweredOn : Bool
  periState : PeriState
  connect : ConnectOutcome
  readRes : ReadOutcome
  rssi : ℚ
  deriving DecidableEq, Repr

structure SessionState where
  lastState : LastState
  peripheralPresent : Bool
  scanning : Bool
  deriving DecidableEq, Repr

structure MainResult where
  state : SessionState
  pub : List PubEvent
  telemetry : Option TelemetryPoint
  intervalArmed : Bool
  backoffMs : Option ℕ
  scanQueued : Bool
  cancelledConnect : Bool
  deriving DecidableEq, Repr

def mainStep (flags : Flags) (env : CycleEnv) (st : SessionState) : MainResult :=
  if env.poweredOn = false then
    -- power off: retry in 10 seconds, nothing else happens
    { state := st, pub := [], telemetry := none, intervalArmed := false,
      backoffMs := some 10000, scanQueued := false, cancelledConnect := false }
  else if st.peripheralPresent = false then
    if st.scanning then
      { state := st, pub := [], telemetry := none, intervalArmed := false,
        backoffMs := none, scanQueued := false, cancelledConnect := false }
    else
      { state := st, pub := [], telemetry := none, intervalArmed := false,
        backoffMs := none, scanQueued := true, cancelledConnect := false }
  else if env.periState = PeriState.error then
    -- stale error state: invalidate the handle, back off 3 s and queue a scan
    { state := { st with peripheralPresent := false }, pub := [],
      telemetry := none, intervalArmed := true, backoffMs := some 3000,
      scanQueued := true, cancelledConnect := true }
  else
    let cancelled := if env.periState = PeriState.connecting then true else false
    match env.connect with
    | ConnectOutcome.timedOut =>
      -- connect race lost: cancelConnect, sleep 3 s, requeue main
      { state := st, pub := [], telemetry := none, intervalArmed := true,
        backoffMs := some 3000, scanQueued := false, cancelledConnect := true }
    | ConnectOutcome.failed =>
      { state := st, pub := [], telemetry := none, intervalArmed := true,
        backoffMs := some 3000, scanQueued := false, cancelledConnect := cancelled }
    | ConnectOutcome.success =>
      match env.readRes with
      | ReadOutcome.timedOut =>
        { state := st, pub := [], telemetry := none, intervalArmed := true,
          backoffMs := some 3000, scanQueued := false, cancelledConnect := cancelled }
      | ReadOutcome.success buf =>
        match decodePayload buf with
        | none =>
          -- decode failure aborts the cycle; the interval timer is already armed
          { state := st, pub := [], telemetry := none, intervalArmed := true,
            backoffMs := none, scanQueued := false, cancelledConnect := cancelled }
        | some r =>
          if r.co2 = 65535 ∨ r.voc = 65535 then
            -- sentinel reading: log and return, no publish, no telemetry
            { state := st, pub := [], telemetry := none, intervalArmed := true,
              backoffMs := none, scanQueued := false, cancelledConnect := cancelled }
          else
            let aqv : ℚ := (classify r.humidity r.radonStAvg r.co2 r.voc : ℕ)
            let pr := publishStep flags st.lastState aqv r.voc r.co2 r.humidity r.temp
            { state := { st with lastState := pr.1 }, pub := pr.2,
              telemetry := if flags.influxEnabled then some (mkPoint env.rssi r) else none,
              intervalArmed := true, backoffMs := none, scanQueued := false,
              cancelledConnect := cancelled }

/-! ## Scan entry (src/src/index.ts, lines 388-429)

Entering `scan` while `_scanning` is already true returns immediately; the
non-reentrant path sets the flag, registers one discover listener and starts
discovery once. -/

structure ScannerState where
  session : SessionState
  listenerCount : ℕ
  discoveryStartCount : ℕ
  deriving DecidableEq, Repr

def scanEnter (st : ScannerState) : ScannerState :=
  if st.session.scanning = true then st
  else
    { session := { st.session with scanning := true },
      listenerCount := st.listenerCount + 1,
      discoveryStartCount := st.discoveryStartCount + 1 }

/-! ## Operation Serializer -/

structure SerializedTask where
  duration : ℕ
  fails : Bool
  deriving DecidableEq, Repr

/-- Modelled from the spec: `globalQueue = new Queue(1, Infinity)` constructs a
concurrency-1 unbounded task queue from the promise-queue dependency, whose
code is not part of this repository.  Per spec section 4.3 the queue runs each
submitted task exactly once, in FIFO admission order, each task starting only
after all earlier tasks have completed, and a failing task does not block later
tasks.  `runQueue t0 tasks` returns the (start, finish) interval of each task
in admission order. -/
def runQueue (t0 : ℕ) : List SerializedTask → List (ℕ × ℕ)
  | [] => []
  | tk :: rest => (t0, t0 + tk.duration) :: runQueue (t0 + tk.duration) rest

/-! ## Concrete inputs used by witnesses -/

/-- A 20-byte payload: humidity byte 140 (→ 70 %rH), temperature word 2500
(→ 25.00 °C), all other fields zero. -/
def sampleBuf : List ℕ :=
  [0, 140, 0, 0, 0, 0, 0, 0, 196, 9, 0, 0, 0, 0, 0, 0, 0, 0, 0, 0]

/-- A 20-byte payload whose CO2 word (bytes 12-13) is the 0xFFFF sentinel. -/
def sentinelBuf : List ℕ :=
  [0, 0, 0, 0, 0, 0, 0, 0, 0, 0, 0, 0, 255, 255, 0, 0, 0, 0, 0, 0]

/-- Manufacturer data carrying tag 0x0334 and serial 1234. -/
def sampleManufacturerData : List ℕ := [0x34, 0x03, 210, 4, 0, 0, 0, 0]

def demoTasks : List SerializedTask :=
  [{ duration := 2, fails := false }, { duration := 3, fails := true },
   { duration := 1, fails := false }]

def allFlags : Flags :=
  { aqEnabled := true, co2Enabled := true, humidityEnabled := true,
    tempEnabled := true, influxEnabled := true }

def baseSession : SessionState :=
  { lastState := initialLastState, peripheralPresent := true, scanning := false }

def sentinelEnv : CycleEnv :=
  { poweredOn := true, periState := PeriState.disconnected,
    connect := ConnectOutcome.success,
    readRes := ReadOutcome.success sentinelBuf, rssi := 0 }

def timeoutEnv : CycleEnv :=
  { poweredOn := true, periState := PeriState.disconnected,
    connect := ConnectOutcome.timedOut, readRes := ReadOutcome.timedOut,
    rssi := 0 }

def scanningState : ScannerState :=
  { session := { lastState := initialLastState, peripheralPresent := false,
                 scanning := true },
    listenerCount := 1, discoveryStartCount := 1 }

/-! ## Theorems -/

/-- C1, counterexample.  The claim says the CO2 sub-score is 5 whenever
co2 ≥ 1000 and in particular exactly 5 at co2 = 1000; the source
(src/src/index.ts lines 308-316) gives 3 at co2 = 1000, both as the sub-score
and through the full classifier with the other inputs neutral. -/
theorem c1_co2_subscore_counterexample :
    co2Score 1000 = 3 ∧ co2Score 1000 ≠ 5 ∧ classify 50 0 1000 0 = 3 := by
  refine ⟨by norm_num [co2Score], by norm_num [co2Score], by norm_num [classify]⟩

/-- C1, amended.  The CO2 sub-score of src/src/index.ts is 5 whenever
co2 ≥ 1500, else 4 whenever co2 ≥ 1200, else 3 whenever co2 ≥ 800, else 2; in
particular co2 = 799 gives 2 (hence at most 3), co2 = 800 gives exactly 3, and
co2 = 1000 gives exactly 3 (not 5).  With the other three inputs neutral the
classifier returns exactly the CO2 sub-score. -/
theorem c1_co2_subscore_amended (c : ℚ) :
    (c ≥ 1500 → co2Score c = 5) ∧
    (c < 1500 → c ≥ 1200 → co2Score c = 4) ∧
    (c < 1200 → c ≥ 800 → co2Score c = 3) ∧
    (c < 800 → co2Score c = 2) ∧
    co2Score 799 = 2 ∧ co2Score 800 = 3 ∧ co2Score 1000 = 3 ∧
    classify 50 0 c 0 = co2Score c := by
  unfold co2Score classify
  norm_num
  split_ifs <;> simp_all <;> linarith

/-- C1, witness for the amended theorem at concrete inputs. -/
theorem c1_co2_subscore_witness :
    co2Score 1600 = 5 ∧ co2Score 1250 = 4 ∧ co2Score 900 = 3 ∧ co2Score 500 = 2 :=
  ⟨(c1_co2_subscore_amended 1600).1 (by norm_num),
   (c1_co2_subscore_amended 1250).2.1 (by norm_num) (by norm_num),
   (c1_co2_subscore_amended 900).2.2.1 (by norm_num) (by norm_num),
   (c1_co2_subscore_amended 500).2.2.2.1 (by norm_num)⟩

/-- C4: for every input the overall air-quality index computed by the source
fold equals the maximum of the four independently evaluated sub-scores (never
their sum or average), and it lies within 0..5. -/
theorem c4_overall_index_is_max (h r c v : ℚ) :
    classify h r c v =
      max (max (max (humidityScore h) (radonScore r)) (co2Score c)) (vocScore v) ∧
    classify h r c v ≤ 5 := by
  unfold classify humidityScore radonScore co2Score vocScore
  split_ifs <;> simp

/-- C10: the classifier always returns at least 2 (each band block contributes
at least 2), so the indices 0 and 1 are never produced even though the declared
range is 0..5. -/
theorem c10_index_at_least_two (h r c v : ℚ) :
    2 ≤ classify h r c v ∧ classify h r c v ≤ 5 := by
  unfold classify
  split_ifs <;> simp

/-- C2, counterexample.  The claim fixes the payload layout at 24 bytes, but
the source format string (4 unsigned 8-bit fields then 8 unsigned 16-bit
fields) describes a 20-byte layout: a 20-byte all-zero buffer decodes
successfully even though its length is not 24, and a 24-byte buffer fails. -/
theorem c2_payload_counterexample :
    (List.replicate 20 0).length ≠ 24 ∧
    decodePayload (List.replicate 20 0) =
      some { humidity := 0, radonStAvg := 0, radonLtAvg := 0, temp := 0,
             pressure := 0, co2 := 0, voc := 0 } ∧
    decodePayload (List.replicate 24 0) = none := by
  refine ⟨by decide, ?_, ?_⟩ <;>
    simp [decodePayload, unpackBBBBH8, readU8, readU16LE]

/-- C2, amended.  Payload decoding accepts exactly the 20-byte layout of four
unsigned 8-bit fields followed by eight little-endian unsigned 16-bit fields
(the source format string BBBBHHHHHHHH), fails on every other length, and the
derived values are humidity = field 1 / 2, radonShortTermAvg = field 4,
radonLongTermAvg = field 5, temperatureC = field 6 / 100,
pressureHPa = field 7 / 50, co2Ppm = field 8, vocPpb = field 9. -/
theorem c2_payload_amended (buf : List ℕ) :
    (buf.length ≠ 20 → decodePayload buf = none) ∧
    (buf.length = 20 →
      decodePayload buf = some
        { humidity := (readU8 buf 1 : ℚ) / 2
          radonStAvg := (readU16LE buf 4 : ℚ)
          radonLtAvg := (readU16LE buf 6 : ℚ)
          temp := (readU16LE buf 8 : ℚ) / 100
          pressure := (readU16LE buf 10 : ℚ) / 50
          co2 := (readU16LE buf 12 : ℚ)
          voc := (readU16LE buf 14 : ℚ) }) := by
  constructor
  · intro h
    simp [decodePayload, unpackBBBBH8, h]
  · intro h
    simp [decodePayload, unpackBBBBH8, h, readU8]

/-- C2, witness: the spec's own example values (humidity byte 140 → 70 %rH,
temperature word 2500 → 25.00 °C) on a concrete 20-byte buffer. -/
theorem c2_payload_witness :
    sampleBuf.length = 20 ∧
    decodePayload sampleBuf =
      some { humidity := 70, radonStAvg := 0, radonLtAvg := 0, temp := 25,
             pressure := 0, co2 := 0, voc := 0 } := by
  refine ⟨by decide, ?_⟩
  have h := (c2_payload_amended sampleBuf).2 (by decide)
  rw [h]
  norm_num [sampleBuf, readU8, readU16LE]

/-- C5: identity decoding returns absent for every manufacturer-data input
shorter than 7 bytes, and a device match is produced only when the first two
little-endian bytes equal the family tag 0x0334 and the next four little-endian
bytes equal the configured target serial. -/
theorem c5_identity_decode :
    (∀ md : List ℕ, md.length < 7 → decodeIdentity md = none) ∧
    (∀ (target : ℕ) (md : List ℕ), onDiscoverMatch target md = true →
      7 ≤ md.length ∧ readU16LE md 0 = 0x0334 ∧ readU32LE md 2 = target) := by
  constructor
  · intro md h
    simp [decodeIdentity]
    omega
  · intro target md h
    by_cases hl : 6 < md.length
    · simp [onDiscoverMatch, decodeIdentity, hl] at h
      exact ⟨by omega, h.1, h.2⟩
    · simp [onDiscoverMatch, decodeIdentity, hl] at h

/-- C5, witness: a concrete 8-byte advertisement with tag 0x0334 and serial
1234 matches, and a 3-byte input decodes to absent. -/
theorem c5_identity_witness :
    decodeIdentity [1, 2, 3] = none ∧
    onDiscoverMatch 1234 sampleManufacturerData = true ∧
    (7 ≤ sampleManufacturerData.length ∧
      readU16LE sampleManufacturerData 0 = 0x0334 ∧
      readU32LE sampleManufacturerData 2 = 1234) :=
  ⟨c5_identity_decode.1 [1, 2, 3] (by decide), by decide,
   c5_identity_decode.2 1234 sampleManufacturerData (by decide)⟩

/-- C3: a decoded reading whose co2 or voc field is the 0xFFFF sentinel makes
the cycle return before the publish and telemetry blocks: no Publisher event,
no telemetry point, the session state (including LastPublishedState and the
cached peripheral handle) is unchanged. -/
theorem c3_sentinel_suppression (flags : Flags) (env : CycleEnv)
    (st : SessionState) (buf : List ℕ) (r : Reading)
    (h1 : env.poweredOn = true) (h2 : st.peripheralPresent = true)
    (h3 : env.periState ≠ PeriState.error)
    (h4 : env.connect = ConnectOutcome.success)
    (h5 : env.readRes = ReadOutcome.success buf)
    (h6 : decodePayload buf = some r)
    (h7 : r.co2 = 65535 ∨ r.voc = 65535) :
    (mainStep flags env st).state = st ∧
    (mainStep flags env st).pub = [] ∧
    (mainStep flags env st).telemetry = none := by
  unfold mainStep
  simp [h1, h2, h3, h4, h5, h6, h7]

/-- C3, witness: a concrete cycle on a payload carrying co2 = 0xFFFF. -/
theorem c3_sentinel_witness :
    (mainStep allFlags sentinelEnv baseSession).state = baseSession ∧
    (mainStep allFlags sentinelEnv baseSession).pub = [] ∧
    (mainStep allFlags sentinelEnv baseSession).telemetry = none :=
  c3_sentinel_suppression allFlags sentinelEnv baseSession sentinelBuf
    { humidity := 0, radonStAvg := 0, radonLtAvg := 0, temp := 0,
      pressure := 0, co2 := 65535, voc := 0 }
    rfl rfl (by decide) rfl rfl
    (by simp [sentinelEnv, decodePayload, unpackBBBBH8, readU8, readU16LE, sentinelBuf])
    (Or.inl rfl)

/-- C7: when the connect phase times out, the cycle cancels the connect
attempt, publishes nothing, writes no telemetry, backs off 3000 ms before
requeueing the main loop, queues no scan, and leaves the whole session state
(in particular the cached peripheral handle) unchanged; the interval timer had
already been re-armed. -/
theorem c7_connect_timeout (flags : Flags) (env : CycleEnv) (st : SessionState)
    (h1 : env.poweredOn = true) (h2 : st.peripheralPresent = true)
    (h3 : env.periState ≠ PeriState.error)
    (h4 : env.connect = ConnectOutcome.timedOut) :
    mainStep flags env st =
      { state := st, pub := [], telemetry := none, intervalArmed := true,
        backoffMs := some 3000, scanQueued := false, cancelledConnect := true } := by
  unfold mainStep
  simp [h1, h2, h3, h4]

/-- C7, witness: a concrete timed-out connect cycle. -/
theorem c7_connect_timeout_witness :
    mainStep allFlags timeoutEnv baseSession =
      { state := baseSession, pub := [], telemetry := none,
        intervalArmed := true, backoffMs := some 3000, scanQueued := false,
        cancelledConnect := true } :=
  c7_connect_timeout allFlags timeoutEnv baseSession rfl rfl (by decide) rfl

/-- C9: entering scan while the scanning flag is set is a no-op: the scanning
flag, the cached peripheral, the last published state, the listener count and
the discovery start count are all unchanged. -/
theorem c9_scan_reentry (st : ScannerState)
    (h : st.session.scanning = true) : scanEnter st = st := by
  unfold scanEnter
  simp [h]

/-- C9, witness: re-entry on a concrete scanning state. -/
theorem c9_scan_reentry_witness : scanEnter scanningState = scanningState :=
  c9_scan_reentry scanningState rfl

/-! ### Publish-step helper lemmas -/

lemma publishStep_aq_mem (flags : Flags) (last : LastState)
    (aqv voc co2 humidity temp : ℚ) :
    PubEvent.airQuality aqv ∈ (publishStep flags last aqv voc co2 humidity temp).2 ↔
      (flags.aqEnabled = true ∧ (aqv ≠ last.aq ∨ voc ≠ last.voc)) := by
  obtain ⟨ae, ce, he, te, ie⟩ := flags
  cases ae <;> cases ce <;> cases he <;> cases te <;>
    simp [publishStep, aqFacetStep, co2FacetStep, humidityFacetStep,
      tempFacetStep] <;>
    split_ifs <;> simp_all

lemma publishStep_voc_mem (flags : Flags) (last : LastState)
    (aqv voc co2 humidity temp : ℚ) :
    PubEvent.vocDensity voc ∈ (publishStep flags last aqv voc co2 humidity temp).2 ↔
      (flags.aqEnabled = true ∧ (aqv ≠ last.aq ∨ voc ≠ last.voc)) := by
  obtain ⟨ae, ce, he, te, ie⟩ := flags
  cases ae <;> cases ce <;> cases he <;> cases te <;>
    simp [publishStep, aqFacetStep, co2FacetStep, humidityFacetStep,
      tempFacetStep] <;>
    split_ifs <;> simp_all

lemma publishStep_co2_mem (flags : Flags) (last : LastState)
    (aqv voc co2 humidity temp : ℚ) :
    PubEvent.co2Level co2 ∈ (publishStep flags last aqv voc co2 humidity temp).2 ↔
      (flags.co2Enabled = true ∧ co2 ≠ last.co2) := by
  obtain ⟨ae, ce, he, te, ie⟩ := flags
  cases ae <;> cases ce <;> cases he <;> cases te <;>
    simp [publishStep, aqFacetStep, co2FacetStep, humidityFacetStep,
      tempFacetStep] <;>
    split_ifs <;> simp_all

lemma publishStep_humidity_mem (flags : Flags) (last : LastState)
    (aqv voc co2 humidity temp : ℚ) :
    PubEvent.relHumidity humidity ∈ (publishStep flags last aqv voc co2 humidity temp).2 ↔
      (flags.humidityEnabled = true ∧ humidity ≠ last.humidity) := by
  obtain ⟨ae, ce, he, te, ie⟩ := flags
  cases ae <;> cases ce <;> cases he <;> cases te <;>
    simp [publishStep, aqFacetStep, co2FacetStep, humidityFacetStep,
      tempFacetStep] <;>
    split_ifs <;> simp_all

lemma publishStep_temp_mem (flags : Flags) (last : LastState)
    (aqv voc co2 humidity temp : ℚ) :
    PubEvent.temperature temp ∈ (publishStep flags last aqv voc co2 humidity temp).2 ↔
      (flags.tempEnabled = true ∧ temp ≠ last.temp) := by
  obtain ⟨ae, ce, he, te, ie⟩ := flags
  cases ae <;> cases ce <;> cases he <;> cases te <;>
    simp [publishStep, aqFacetStep, co2FacetStep, humidityFacetStep,
      tempFacetStep] <;>
    split_ifs <;> simp_all

lemma publishStep_aq_state (flags : Flags) (last : LastState)
    (aqv voc co2 humidity temp : ℚ) :
    (publishStep flags last aqv voc co2 humidity temp).1.aq =
      (if flags.aqEnabled = true ∧ (aqv ≠ last.aq ∨ voc ≠ last.voc) then aqv
       else last.aq) := by
  obtain ⟨ae, ce, he, te, ie⟩ := flags
  cases ae <;> cases ce <;> cases he <;> cases te <;>
    simp [publishStep, aqFacetStep, co2FacetStep, humidityFacetStep,
      tempFacetStep] <;>
    split_ifs <;> simp_all

lemma publishStep_voc_state (flags : Flags) (last : LastState)
    (aqv voc co2 humidity temp : ℚ) :
    (publishStep flags last aqv voc co2 humidity temp).1.voc =
      (if flags.aqEnabled = true ∧ (aqv ≠ last.aq ∨ voc ≠ last.voc) then voc
       else last.voc) := by
  obtain ⟨ae, ce, he, te, ie⟩ := flags
  cases ae <;> cases ce <;> cases he <;> cases te <;>
    simp [publishStep, aqFacetStep, co2FacetStep, humidityFacetStep,
      tempFacetStep] <;>
    split_ifs <;> simp_all

lemma publishStep_co2_state (flags : Flags) (last : LastState)
    (aqv voc co2 humidity temp : ℚ) :
    (publishStep flags last aqv voc co2 humidity temp).1.co2 =
      (if flags.co2Enabled = true ∧ co2 ≠ last.co2 then co2 else last.co2) := by
  obtain ⟨ae, ce, he, te, ie⟩ := flags
  cases ae <;> cases ce <;> cases he <;> cases te <;>
    simp [publishStep, aqFacetStep, co2FacetStep, humidityFacetStep,
      tempFacetStep] <;>
    split_ifs <;> simp_all

lemma publishStep_humidity_state (flags : Flags) (last : LastState)
    (aqv voc co2 humidity temp : ℚ) :
    (publishStep flags last aqv voc co2 humidity temp).1.humidity =
      (if flags.humidityEnabled = true ∧ humidity ≠ last.humidity then humidity
       else last.humidity) := by
  obtain ⟨ae, ce, he, te, ie⟩ := flags
  cases ae <;> cases ce <;> cases he <;> cases te <;>
    simp [publishStep, aqFacetStep, co2FacetStep, humidityFacetStep,
      tempFacetStep] <;>
    split_ifs <;> simp_all

lemma publishStep_temp_state (flags : Flags) (last : LastState)
    (aqv voc co2 humidity temp : ℚ) :
    (publishStep flags last aqv voc co2 humidity temp).1.temp =
      (if flags.tempEnabled = true ∧ temp ≠ last.temp then temp
       else last.temp) := by
  obtain ⟨ae, ce, he, te, ie⟩ := flags
  cases ae <;> cases ce <;> cases he <;> cases te <;>
    simp [publishStep, aqFacetStep, co2FacetStep, humidityFacetStep,
      tempFacetStep] <;>
    split_ifs <;> simp_all

lemma publishStep_co2_count (flags : Flags) (last : LastState)
    (aqv voc co2 humidity temp : ℚ) :
    ((publishStep flags last aqv voc co2 humidity temp).2.countP isCo2Event) =
      (if flags.co2Enabled = true ∧ co2 ≠ last.co2 then 1 else 0) := by
  obtain ⟨ae, ce, he, te, ie⟩ := flags
  cases ae <;> cases ce <;> cases he <;> cases te <;>
    simp [publishStep, aqFacetStep, co2FacetStep, humidityFacetStep,
      tempFacetStep, isCo2Event, List.countP_append, List.countP_cons] <;>
    split_ifs <;> simp_all [isCo2Event]

/-- C6: for each enabled facet the publish step emits an update exactly when
the newly derived value differs from LastPublishedState, and LastPublishedState
is updated exactly on emit; the air-quality index and its paired VOC value are
emitted together whenever either of the two changes; and a second read cycle
with the same CO2 value emits no further CO2 update, so two consecutive reads
with identical CO2 produce exactly one CO2 update. -/
theorem c6_change_suppression (flags : Flags) (last : LastState)
    (aqv voc co2 humidity temp aqv2 voc2 humidity2 temp2 : ℚ) :
    (flags.co2Enabled = true →
      ((PubEvent.co2Level co2 ∈ (publishStep flags last aqv voc co2 humidity temp).2) ↔
        co2 ≠ last.co2) ∧
      (publishStep flags last aqv voc co2 humidity temp).1.co2 =
        (if co2 ≠ last.co2 then co2 else last.co2)) ∧
    (flags.humidityEnabled = true →
      ((PubEvent.relHumidity humidity ∈ (publishStep flags last aqv voc co2 humidity temp).2) ↔
        humidity ≠ last.humidity) ∧
      (publishStep flags last aqv voc co2 humidity temp).1.humidity =
        (if humidity ≠ last.humidity then humidity else last.humidity)) ∧
    (flags.tempEnabled = true →
      ((PubEvent.temperature temp ∈ (publishStep flags last aqv voc co2 humidity temp).2) ↔
        temp ≠ last.temp) ∧
      (publishStep flags last aqv voc co2 humidity temp).1.temp =
        (if temp ≠ last.temp then temp else last.temp)) ∧
    (flags.aqEnabled = true →
      ((PubEvent.airQuality aqv ∈ (publishStep flags last aqv voc co2 humidity temp).2) ↔
        (aqv ≠ last.aq ∨ voc ≠ last.voc)) ∧
      (publishStep flags last aqv voc co2 humidity temp).1.aq =
        (if aqv ≠ last.aq ∨ voc ≠ last.voc then aqv else last.aq) ∧
      (publishStep flags last aqv voc co2 humidity temp).1.voc =
        (if aqv ≠ last.aq ∨ voc ≠ last.voc then voc else last.voc)) ∧
    ((PubEvent.airQuality aqv ∈ (publishStep flags last aqv voc co2 humidity temp).2) ↔
      (PubEvent.vocDensity voc ∈ (publishStep flags last aqv voc co2 humidity temp).2)) ∧
    (flags.co2Enabled = true →
      ((publishStep flags (publishStep flags last aqv voc co2 humidity temp).1
          aqv2 voc2 co2 humidity2 temp2).2.countP isCo2Event = 0) ∧
      (co2 ≠ last.co2 →
        (publishStep flags last aqv voc co2 humidity temp).2.countP isCo2Event = 1)) := by
  refine ⟨?_, ?_, ?_, ?_, ?_, ?_⟩
  · intro hce
    constructor
    · rw [publishStep_co2_mem]
      simp [hce]
    · rw [publishStep_co2_state]
      simp [hce]
  · intro hhe
    constructor
    · rw [publishStep_humidity_mem]
      simp [hhe]
    · rw [publishStep_humidity_state]
      simp [hhe]
  · intro hte
    constructor
    · rw [publishStep_temp_mem]
      simp [hte]
    · rw [publishStep_temp_state]
      simp [hte]
  · intro hae
    refine ⟨?_, ?_, ?_⟩
    · rw [publishStep_aq_mem]
      simp [hae]
    · rw [publishStep_aq_state]
      simp [hae]
    · rw [publishStep_voc_state]
      simp [hae]
  · rw [publishStep_aq_mem, publishStep_voc_mem]
  · intro hce
    have h1 : (publishStep flags last aqv voc co2 humidity temp).1.co2 = co2 := by
      rw [publishStep_co2_state]
      by_cases hx : co2 = last.co2
      · simp [hx]
      · simp [hce, hx]
    constructor
    · rw [publishStep_co2_count, h1]
      simp
    · intro hne
      rw [publishStep_co2_count]
      simp [hce, hne]

/-- C6, witness: on the initial last state (all fields -1) a concrete reading
emits the CO2 update once, the air-quality and VOC updates together, and a
second cycle with the same CO2 value emits no further CO2 update. -/
theorem c6_change_suppression_witness :
    (PubEvent.co2Level 500 ∈ (publishStep allFlags initialLastState 2 100 500 50 25).2) ∧
    (PubEvent.airQuality 2 ∈ (publishStep allFlags initialLastState 2 100 500 50 25).2) ∧
    (PubEvent.vocDensity 100 ∈ (publishStep allFlags initialLastState 2 100 500 50 25).2) ∧
    (publishStep allFlags (publishStep allFlags initialLastState 2 100 500 50 25).1
      2 100 500 50 25).2.countP isCo2Event = 0 ∧
    (publishStep allFlags initialLastState 2 100 500 50 25).2.countP isCo2Event = 1 := by
  have h := c6_change_suppression allFlags initialLastState 2 100 500 50 25 2 100 50 25
  refine ⟨?_, ?_, ?_, ?_, ?_⟩
  · exact ((h.1 rfl).1).mpr (by norm_num [initialLastState])
  · exact ((h.2.2.2.1 rfl).1).mpr (Or.inl (by norm_num [initialLastState]))
  · exact (h.2.2.2.2.1).mp (((h.2.2.2.1 rfl).1).mpr (Or.inl (by norm_num [initialLastState])))
  · exact (h.2.2.2.2.2 rfl).1
  · exact (h.2.2.2.2.2 rfl).2 (by norm_num [initialLastState])

/-! ### Operation Serializer lemmas -/

lemma runQueue_length (t0 : ℕ) (tasks : List SerializedTask) :
    (runQueue t0 tasks).length = tasks.length := by
  induction tasks generalizing t0 with
  | nil => rfl
  | cons tk rest ih => simp [runQueue, ih]

lemma runQueue_bounds (t0 : ℕ) (tasks : List SerializedTask) :
    ∀ p ∈ runQueue t0 tasks, t0 ≤ p.1 ∧ p.1 ≤ p.2 := by
  induction tasks generalizing t0 with
  | nil =>
    intro p hp
    simp [runQueue] at hp
  | cons tk rest ih =>
    intro p hp
    rw [runQueue] at hp
    rcases List.mem_cons.mp hp with h | h
    · subst h
      exact ⟨le_refl _, Nat.le_add_right _ _⟩
    · have h2 := ih (t0 + tk.duration) p h
      exact ⟨le_trans (Nat.le_add_right _ _) h2.1, h2.2⟩

lemma runQueue_pairwise (t0 : ℕ) (tasks : List SerializedTask) :
    (runQueue t0 tasks).Pairwise (fun a b => a.2 ≤ b.1) := by
  induction tasks generalizing t0 with
  | nil => simp [runQueue]
  | cons tk rest ih =>
    rw [runQueue]
    refine List.Pairwise.cons ?_ (ih _)
    intro p hp
    exact (runQueue_bounds _ _ p hp).1

lemma runQueue_ignores_failures (t0 : ℕ) (tasks : List SerializedTask) :
    runQueue t0 (tasks.map fun tk => { tk with fails := true }) =
      runQueue t0 tasks := by
  induction tasks generalizing t0 with
  | nil => rfl
  | cons tk rest ih => simp [runQueue, ih]

/-- C8: the serializer runs one interval per submitted task (each task runs
exactly once), a later-admitted task starts only at or after the completion of
every earlier task (so no two tasks overlap and completion order equals
admission order), every interval is well-formed, and the schedule is unchanged
when tasks fail (a throwing task does not prevent later tasks from running). -/
theorem c8_serializer_fifo (t0 : ℕ) (tasks : List SerializedTask) :
    (runQueue t0 tasks).length = tasks.length ∧
    (∀ i j : Fin (runQueue t0 tasks).length, i < j →
      ((runQueue t0 tasks).get i).2 ≤ ((runQueue t0 tasks).get j).1) ∧
    (∀ i : Fin (runQueue t0 tasks).length,
      ((runQueue t0 tasks).get i).1 ≤ ((runQueue t0 tasks).get i).2) ∧
    runQueue t0 (tasks.map fun tk => { tk with fails := true }) =
      runQueue t0 tasks := by
  refine ⟨runQueue_length t0 tasks, ?_, ?_, runQueue_ignores_failures t0 tasks⟩
  · intro i j hij
    exact List.pairwise_iff_get.mp (runQueue_pairwise t0 tasks) i j hij
  · intro i
    exact (runQueue_bounds t0 tasks _ (List.get_mem _ _ _)).2

/-- C8, witness: three concrete tasks, the middle one failing, still schedule
in admission order with no overlap. -/
theorem c8_serializer_witness :
    (runQueue 0 demoTasks).length = demoTasks.length ∧
    ((runQueue 0 demoTasks).get ⟨0, by decide⟩).2 ≤
      ((runQueue 0 demoTasks).get ⟨2, by decide⟩).1 ∧
    runQueue 0 (demoTasks.map fun tk => { tk with fails := true }) =
      runQueue 0 demoTasks :=
  ⟨(c8_serializer_fifo 0 demoTasks).1,
   (c8_serializer_fifo 0 demoTasks).2.1 ⟨0, by decide⟩ ⟨2, by decide⟩ (by decide),
   (c8_serializer_fifo 0 demoTasks).2.2.2⟩
